import Mathlib

/-!
Shallow embedding of `src/runtime/hip/hip_hardware_manager.cpp` (AdaptiveCpp HIP
hardware manager) and proofs about its behaviour.

Conventions:
* C++ `std::string` values are modelled as `List Char`.
* C++ `int` fields are modelled as `Int`; `std::size_t` values as `Nat`, with the
  conversion `int -> size_t` made explicit by `usize` (reduction modulo 2^64).
* Fallible C++ code (exceptions thrown by `std::stoi`) is modelled with `Except`.
* Situations in which the C++ program has no defined result (the division in
  `max_num_sub_groups` when the divisor is zero, the `assert(false);
  std::terminate()` fall-through after a switch) are modelled as `none` of an
  `Option` result.
* Diagnostics (`print_warning` / `register_error`) are modelled by returning the
  number of diagnostics emitted alongside the result.
-/

/-! ## Architecture-string parser (lines 28-47) -/

/-- The exceptions `std::stoi` can throw: `std::invalid_argument` when no conversion
could be performed (empty digit sequence), `std::out_of_range` when the converted
value does not fit in `int`. -/
inductive StoiError where
  | invalidArgument
  | outOfRange
  deriving DecidableEq, Repr

/-- C `isxdigit` (default locale): true exactly on the ASCII hexadecimal digits
`0`-`9`, `a`-`f`, `A`-`F`. -/
def cxx_isxdigit (c : Char) : Bool :=
  (decide (48 ≤ c.toNat) && decide (c.toNat ≤ 57)) ||
    (decide (97 ≤ c.toNat) && decide (c.toNat ≤ 102)) ||
    (decide (65 ≤ c.toNat) && decide (c.toNat ≤ 70))

/-- Numeric value of one ASCII hexadecimal digit. -/
def hexDigitVal (c : Char) : Nat :=
  if 48 ≤ c.toNat ∧ c.toNat ≤ 57 then c.toNat - 48
  else if 97 ≤ c.toNat ∧ c.toNat ≤ 102 then c.toNat - 87
  else c.toNat - 55

/-- Value of a string of hexadecimal digits read in base 16 (most significant digit
first), as `std::stoi(s, nullptr, 16)` computes it on an all-hex-digit string. -/
def parseHexNat (s : List Char) : Nat :=
  s.foldl (fun acc c => 16 * acc + hexDigitVal c) 0

/-- `std::stoi(s, nullptr, 16)` for a string `s` of hexadecimal digits (the only
situation in which the source calls it): an empty string performs no conversion and
throws `std::invalid_argument`; a value above `INT_MAX = 2147483647` throws
`std::out_of_range`; otherwise the parsed value is returned. -/
def stoi16 (s : List Char) : Except StoiError Nat :=
  if s = [] then Except.error StoiError.invalidArgument
  else if 2147483647 < parseHexNat s then Except.error StoiError.outOfRange
  else Except.ok (parseHexNat s)

/-- `std::string::find(pat)`: index of the first occurrence of `pat`, or `none`
for `std::string::npos`. -/
def cppFind (pat : List Char) : List Char → Option Nat
  | [] => if pat.isPrefixOf ([] : List Char) then some 0 else none
  | c :: rest =>
      if pat.isPrefixOf (c :: rest) then some 0
      else (cppFind pat rest).map (· + 1)

/-- `substr.find(":") != npos` followed by `substr.erase(colon_pos)`: keep the part
of the string strictly before the first colon, the whole string if there is none. -/
def eraseAtFirstColon (s : List Char) : List Char :=
  match cppFind [':'] s with
  | some colonPos => s.take colonPos
  | none => s

/-- Embedding of `device_arch_string_to_int` (hip_hardware_manager.cpp, lines
28-47). The prefix test is `device_name.find("gfx") != 0`; the prefix `"gfx"` has
length 3; exceptions escaping `std::stoi` are modelled as `Except.error`. -/
def device_arch_string_to_int (device_name : List Char) : Except StoiError Nat :=
  if cppFind ['g', 'f', 'x'] device_name ≠ some 0 then Except.ok 0
  else if ¬ ((eraseAtFirstColon (device_name.drop 3)).all cxx_isxdigit = true) then
    Except.ok 0
  else stoi16 (eraseAtFirstColon (device_name.drop 3))

/-- The architecture parser as characterised by the amended claim C1: a string not
beginning with `"gfx"` yields 0; otherwise the prefix is stripped and the remainder
truncated at the first colon; a non-hex-digit character yields 0; an empty remaining
substring makes the base-16 parse throw `std::invalid_argument`; a value above
`INT_MAX` throws `std::out_of_range`; otherwise the base-16 value is returned. -/
def arch_parse_claim (s : List Char) : Except StoiError Nat :=
  if ¬ ((['g', 'f', 'x'] : List Char).isPrefixOf s = true) then Except.ok 0
  else if ¬ (((s.drop 3).takeWhile (fun c => c != ':')).all cxx_isxdigit = true) then
    Except.ok 0
  else if (s.drop 3).takeWhile (fun c => c != ':') = [] then
    Except.error StoiError.invalidArgument
  else if 2147483647 < parseHexNat ((s.drop 3).takeWhile (fun c => c != ':')) then
    Except.error StoiError.outOfRange
  else Except.ok (parseHexNat ((s.drop 3).takeWhile (fun c => c != ':')))

/-! ## Data model: tags, status codes, property record -/

/-- Modelled from the spec: the backend platform tag (`hardware_platform`, defined
in a header outside src/). Only `rocm` is named by the source; the manager accepts
the tag as a constructor argument. -/
inductive hardware_platform where
  | rocm
  | cuda
  deriving DecidableEq, Repr

/-- Modelled from the spec: the vendor API tag (`api_platform`, defined in a header
outside src/). The HIP backend always uses `api_platform::hip`. -/
inductive api_platform where
  | hip
  deriving DecidableEq, Repr

/-- Modelled from the spec: `backend_descriptor{hw_platform, api_platform}`. -/
structure backend_descriptor where
  hw_platform : hardware_platform
  sw_platform : api_platform
  deriving DecidableEq, Repr

/-- Modelled from the spec: a Device Identifier `device_id{descriptor, int index}`,
a composite of the backend descriptor and the (C++ `int`) device index. -/
structure device_id where
  descriptor : backend_descriptor
  id : Int
  deriving DecidableEq, Repr

/-- The HIP status codes distinguished by the source: `hipSuccess`,
`hipErrorNoDevice`, and any other error (carrying its numeric code). -/
inductive HipError where
  | success
  | noDevice
  | other (code : Nat)
  deriving DecidableEq, Repr

/-- The fields of `hipDeviceProp_t` that `hip_hardware_manager.cpp` reads. C++
`int` fields are modelled as `Int`, `size_t` fields as `Nat`, the two strings as
`List Char`. The `int[3]` arrays `maxThreadsDim` and `maxGridSize` are split into
three fields each. -/
structure hipDeviceProp_t where
  name : List Char
  gcnArchName : List Char
  multiProcessorCount : Int
  maxThreadsDim0 : Int
  maxThreadsDim1 : Int
  maxThreadsDim2 : Int
  maxGridSize0 : Int
  maxGridSize1 : Int
  maxGridSize2 : Int
  maxThreadsPerBlock : Int
  warpSize : Int
  concurrentKernels : Int
  clockRate : Int
  l2CacheSize : Int
  totalGlobalMem : Nat
  totalConstMem : Nat
  sharedMemPerBlock : Nat
  deriving DecidableEq, Repr

/-- `std::make_unique<hipDeviceProp_t>()` value-initializes the record: every field
is zeroed. This is the snapshot a context keeps when `hipGetDeviceProperties`
fails. -/
def zeroDeviceProp : hipDeviceProp_t :=
  ⟨[], [], 0, 0, 0, 0, 0, 0, 0, 0, 0, 0, 0, 0, 0, 0, 0⟩

/-- C++ conversion from a signed value to `std::size_t`: reduction modulo 2^64. -/
def usize (i : Int) : Nat :=
  (i % 18446744073709551616).toNat

/-- C++ `static_cast<int>` of a `std::size_t` value: two's-complement wrap-around
into the range of a 32-bit `int`. -/
def toInt32 (n : Nat) : Int :=
  if (n : Int) % 4294967296 < 2147483648 then (n : Int) % 4294967296
  else (n : Int) % 4294967296 - 4294967296

/-! ## The closed property and aspect enumerations

Modelled from the spec: the enumerations `device_support_aspect` and
`device_uint_property` are defined in `hipSYCL/runtime/hardware.hpp`, which is not
under src/. The spec describes them as closed enumerations over which the switches
of the source are exhaustive, so their constructors are exactly the cases of those
switches. -/

/-- The closed boolean-capability ("aspect") enumeration, with exactly the
enumerators handled by `hip_hardware_context::has` (lines 187-253). -/
inductive device_support_aspect where
  | emulated_local_memory
  | host_unified_memory
  | error_correction
  | global_mem_cache
  | global_mem_cache_read_only
  | global_mem_cache_read_write
  | images
  | little_endian
  | sub_group_independent_forward_progress
  | usm_device_allocations
  | usm_host_allocations
  | usm_atomic_host_allocations
  | usm_shared_allocations
  | usm_atomic_shared_allocations
  | usm_system_allocations
  | execution_timestamps
  | sscp_kernels
  | work_item_independent_forward_progress
  deriving DecidableEq, Repr, Fintype

/-- The closed scalar ("uint") property enumeration, with exactly the enumerators
handled by `hip_hardware_context::get_property(device_uint_property)` (lines
255-413). -/
inductive device_uint_property where
  | max_compute_units
  | max_global_size0
  | max_global_size1
  | max_global_size2
  | max_group_size0
  | max_group_size1
  | max_group_size2
  | max_group_size
  | max_num_sub_groups
  | needs_dimension_flip
  | preferred_vector_width_char
  | preferred_vector_width_double
  | preferred_vector_width_float
  | preferred_vector_width_half
  | preferred_vector_width_int
  | preferred_vector_width_long
  | preferred_vector_width_short
  | native_vector_width_char
  | native_vector_width_double
  | native_vector_width_float
  | native_vector_width_half
  | native_vector_width_int
  | native_vector_width_long
  | native_vector_width_short
  | max_clock_speed
  | max_malloc_size
  | address_bits
  | max_read_image_args
  | max_write_image_args
  | image2d_max_width
  | image2d_max_height
  | image3d_max_width
  | image3d_max_height
  | image3d_max_depth
  | image_max_buffer_size
  | image_max_array_size
  | max_samplers
  | max_parameter_size
  | mem_base_addr_align
  | global_mem_cache_line_size
  | global_mem_cache_size
  | global_mem_size
  | max_constant_buffer_size
  | max_constant_args
  | local_mem_size
  | printf_buffer_size
  | partition_max_sub_devices
  | vendor_id
  | architecture
  | backend_id
  deriving DecidableEq, Repr, Fintype

/-- The closed list-property enumeration: only `sub_group_sizes` (lines 415-425). -/
inductive device_uint_list_property where
  | sub_group_sizes
  deriving DecidableEq, Repr, Fintype

/-! ## Device Context (lines 115-443) -/

/-- The state of a `hip_hardware_context`: the native device index, the immutable
property snapshot, and the cached numeric architecture identifier. (The allocator
and event pool it also owns are external collaborators, out of scope here.) -/
structure hip_hardware_context where
  dev : Nat
  properties : hipDeviceProp_t
  numeric_architecture : Nat
  deriving DecidableEq, Repr

/-- Embedding of the `hip_hardware_context` constructor (lines 119-136).
`queryResult = some p` models `hipGetDeviceProperties` succeeding and writing `p`;
`none` models it failing, which registers one error and leaves the
value-initialized (zeroed) record in place. The architecture identifier is then
computed by `device_arch_string_to_int` on `gcnArchName`; an exception escaping
that call (modelled as `Except.error`) escapes the constructor. The second
component of the result is the number of errors registered. -/
def hip_hardware_context.construct (dev : Nat) (queryResult : Option hipDeviceProp_t) :
    Except StoiError (hip_hardware_context × Nat) :=
  let props := queryResult.getD zeroDeviceProp
  match device_arch_string_to_int props.gcnArchName with
  | Except.error e => Except.error e
  | Except.ok arch =>
      Except.ok (⟨dev, props, arch⟩, if queryResult.isNone then 1 else 0)

/-- Embedding of `hip_hardware_context::get_max_kernel_concurrency` (lines
158-160): `_properties->concurrentKernels + 1`, an `int` sum converted to the
`std::size_t` return type. -/
def hip_hardware_context.get_max_kernel_concurrency (ctx : hip_hardware_context) : Nat :=
  usize (ctx.properties.concurrentKernels + 1)

/-- Embedding of `hip_hardware_context::get_max_memcpy_concurrency` (lines
162-165): defined as a call to `get_max_kernel_concurrency`. -/
def hip_hardware_context.get_max_memcpy_concurrency (ctx : hip_hardware_context) : Nat :=
  ctx.get_max_kernel_concurrency

/-- Embedding of `hip_hardware_context::has` (lines 187-253). The C++ switch has a
case for every enumerator and is followed by `assert(false); std::terminate()`;
that fall-through is modelled by the final `none`, so the switch dispatch is
rendered as a chain of equality tests in source order. `sscpCompiler` models the
`HIPSYCL_WITH_SSCP_COMPILER` build flag; the context state itself is not read. -/
def hip_hardware_context.has (sscpCompiler : Bool) (_ctx : hip_hardware_context)
    (aspect : device_support_aspect) : Option Bool :=
  if aspect = device_support_aspect.emulated_local_memory then some false
  else if aspect = device_support_aspect.host_unified_memory then some false
  else if aspect = device_support_aspect.error_correction then some false
  else if aspect = device_support_aspect.global_mem_cache then some true
  else if aspect = device_support_aspect.global_mem_cache_read_only then some false
  else if aspect = device_support_aspect.global_mem_cache_read_write then some true
  else if aspect = device_support_aspect.images then some false
  else if aspect = device_support_aspect.little_endian then some true
  else if aspect = device_support_aspect.sub_group_independent_forward_progress then
    some true
  else if aspect = device_support_aspect.usm_device_allocations then some true
  else if aspect = device_support_aspect.usm_host_allocations then some true
  else if aspect = device_support_aspect.usm_atomic_host_allocations then some false
  else if aspect = device_support_aspect.usm_shared_allocations then some true
  else if aspect = device_support_aspect.usm_atomic_shared_allocations then some false
  else if aspect = device_support_aspect.usm_system_allocations then some false
  else if aspect = device_support_aspect.execution_timestamps then some true
  else if aspect = device_support_aspect.sscp_kernels then some sscpCompiler
  else if aspect = device_support_aspect.work_item_independent_forward_progress then
    some false
  else none

/-- Embedding of `hip_hardware_context::get_property(device_uint_property)` (lines
255-413), rendered as a chain of equality tests in source order. The result is
`none` exactly where the C++ has no defined result: the `assert(false);
std::terminate()` fall-through after the switch, and the undefined behaviour of the
`int` division `maxThreadsPerBlock / warpSize` (division by zero, or the
`INT_MIN / -1` overflow). `backendIdHip` models the integer value of
`backend_id::hip` (an enumerator of `backend_id`, defined in a header outside
src/). -/
def hip_hardware_context.get_property (backendIdHip : Int) (ctx : hip_hardware_context)
    (prop : device_uint_property) : Option Nat :=
  if prop = device_uint_property.max_compute_units then
    some (usize ctx.properties.multiProcessorCount)
  else if prop = device_uint_property.max_global_size0 then
    some ((usize ctx.properties.maxThreadsDim0 * usize ctx.properties.maxGridSize0) %
      18446744073709551616)
  else if prop = device_uint_property.max_global_size1 then
    some ((usize ctx.properties.maxThreadsDim1 * usize ctx.properties.maxGridSize1) %
      18446744073709551616)
  else if prop = device_uint_property.max_global_size2 then
    some ((usize ctx.properties.maxThreadsDim2 * usize ctx.properties.maxGridSize2) %
      18446744073709551616)
  else if prop = device_uint_property.max_group_size0 then
    some (usize ctx.properties.maxThreadsDim0)
  else if prop = device_uint_property.max_group_size1 then
    some (usize ctx.properties.maxThreadsDim1)
  else if prop = device_uint_property.max_group_size2 then
    some (usize ctx.properties.maxThreadsDim2)
  else if prop = device_uint_property.max_group_size then
    some (usize ctx.properties.maxThreadsPerBlock)
  else if prop = device_uint_property.max_num_sub_groups then
    if ctx.properties.warpSize = 0 ∨
        (ctx.properties.maxThreadsPerBlock = -2147483648 ∧ ctx.properties.warpSize = -1)
    then none
    else some (usize (Int.tdiv ctx.properties.maxThreadsPerBlock ctx.properties.warpSize))
  else if prop = device_uint_property.needs_dimension_flip then some 1
  else if prop = device_uint_property.preferred_vector_width_char then some 4
  else if prop = device_uint_property.preferred_vector_width_double then some 1
  else if prop = device_uint_property.preferred_vector_width_float then some 1
  else if prop = device_uint_property.preferred_vector_width_half then some 2
  else if prop = device_uint_property.preferred_vector_width_int then some 1
  else if prop = device_uint_property.preferred_vector_width_long then some 1
  else if prop = device_uint_property.preferred_vector_width_short then some 2
  else if prop = device_uint_property.native_vector_width_char then some 4
  else if prop = device_uint_property.native_vector_width_double then some 1
  else if prop = device_uint_property.native_vector_width_float then some 1
  else if prop = device_uint_property.native_vector_width_half then some 2
  else if prop = device_uint_property.native_vector_width_int then some 1
  else if prop = device_uint_property.native_vector_width_long then some 1
  else if prop = device_uint_property.native_vector_width_short then some 2
  else if prop = device_uint_property.max_clock_speed then
    some (usize (Int.tdiv ctx.properties.clockRate 1000))
  else if prop = device_uint_property.max_malloc_size then
    some ctx.properties.totalGlobalMem
  else if prop = device_uint_property.address_bits then some 64
  else if prop = device_uint_property.max_read_image_args then some 0
  else if prop = device_uint_property.max_write_image_args then some 0
  else if prop = device_uint_property.image2d_max_width then some 0
  else if prop = device_uint_property.image2d_max_height then some 0
  else if prop = device_uint_property.image3d_max_width then some 0
  else if prop = device_uint_property.image3d_max_height then some 0
  else if prop = device_uint_property.image3d_max_depth then some 0
  else if prop = device_uint_property.image_max_buffer_size then some 0
  else if prop = device_uint_property.image_max_array_size then some 0
  else if prop = device_uint_property.max_samplers then some 0
  else if prop = device_uint_property.max_parameter_size then
    some 18446744073709551615
  else if prop = device_uint_property.mem_base_addr_align then some 8
  else if prop = device_uint_property.global_mem_cache_line_size then some 128
  else if prop = device_uint_property.global_mem_cache_size then
    some (usize ctx.properties.l2CacheSize)
  else if prop = device_uint_property.global_mem_size then
    some ctx.properties.totalGlobalMem
  else if prop = device_uint_property.max_constant_buffer_size then
    some ctx.properties.totalConstMem
  else if prop = device_uint_property.max_constant_args then
    some 18446744073709551615
  else if prop = device_uint_property.local_mem_size then
    some ctx.properties.sharedMemPerBlock
  else if prop = device_uint_property.printf_buffer_size then
    some 18446744073709551615
  else if prop = device_uint_property.partition_max_sub_devices then some 0
  else if prop = device_uint_property.vendor_id then some 1022
  else if prop = device_uint_property.architecture then
    some ctx.numeric_architecture
  else if prop = device_uint_property.backend_id then some (usize backendIdHip)
  else none

/-- Embedding of `hip_hardware_context::get_property(device_uint_list_property)`
(lines 415-425): the single enumerator yields a one-element vector holding the
warp size. -/
def hip_hardware_context.get_list_property (ctx : hip_hardware_context)
    (prop : device_uint_list_property) : Option (List Nat) :=
  if prop = device_uint_list_property.sub_group_sizes then
    some [usize ctx.properties.warpSize]
  else none

/-- The defaulted Device Context: index 0 with the zeroed property snapshot, as
produced when `hipGetDeviceProperties` fails (cf.
`hip_hardware_context.construct 0 none`). -/
def defaulted_hip_context : hip_hardware_context :=
  ⟨0, zeroDeviceProp, 0⟩

/-! ## Device Manager (lines 51-113) -/

/-- The state of a `hip_hardware_manager`: its platform tag and the owned sequence
of Device Contexts. -/
structure hip_hardware_manager where
  hw_platform : hardware_platform
  devices : List hip_hardware_context

/-- Embedding of `hip_hardware_manager::get_num_devices` (lines 85-87). -/
def hip_hardware_manager.get_num_devices (m : hip_hardware_manager) : Nat :=
  m.devices.length

/-- Embedding of the `hip_hardware_manager` constructor (lines 51-82). `maskWarn`
models the `has_device_visibility_mask(...)` condition (one warning when true);
`err` and `countOut` model the status of `hipGetDeviceCount` and the count it
writes on success; `mkCtx` models the construction of the Device Context for one
device index (line 79, `_devices.emplace_back(dev)`). On a non-success status the
count is reset to zero, and a second warning is printed unless the status is
`hipErrorNoDevice`. The second component of the result is the number of warnings
printed. -/
def hip_hardware_manager.construct (hw : hardware_platform) (maskWarn : Bool)
    (err : HipError) (countOut : Nat) (mkCtx : Nat → hip_hardware_context) :
    hip_hardware_manager × Nat :=
  let maskWarnings := if maskWarn then 1 else 0
  let num_devices := if err = HipError.success then countOut else 0
  let countWarnings := if err ≠ HipError.success ∧ err ≠ HipError.noDevice then 1 else 0
  (⟨hw, (List.range num_devices).map mkCtx⟩, maskWarnings + countWarnings)

/-- Embedding of `hip_hardware_manager::get_device` (lines 89-98): out of bounds
registers one error and returns `nullptr` (modelled `none`); otherwise the owned
context at that slot is returned with no error. The second component is the number
of errors registered; the manager state is not modified (the embedding is pure). -/
def hip_hardware_manager.get_device (m : hip_hardware_manager) (index : Nat) :
    Option hip_hardware_context × Nat :=
  if m.devices.length ≤ index then (none, 1)
  else (m.devices[index]?, 0)

/-- Embedding of `hip_hardware_manager::get_device_id` (lines 100-109): an
out-of-bounds index registers one error, but in every case the identifier
`device_id{backend_descriptor{_hw_platform, api_platform::hip},
static_cast<int>(index)}` is returned. The second component is the number of
errors registered. -/
def hip_hardware_manager.get_device_id (m : hip_hardware_manager) (index : Nat) :
    device_id × Nat :=
  (⟨⟨m.hw_platform, api_platform.hip⟩, toInt32 index⟩,
    if m.devices.length ≤ index then 1 else 0)

/-- Embedding of `hip_hardware_manager::get_num_platforms` (lines 111-113). -/
def hip_hardware_manager.get_num_platforms (_m : hip_hardware_manager) : Nat := 1

/-! ## Concrete fixtures used to instantiate hypothesis-bearing theorems -/

/-- A context whose snapshot reports concurrent-kernel support. -/
def c7_ctx : hip_hardware_context :=
  ⟨0, { zeroDeviceProp with concurrentKernels := 1 }, 0⟩

/-- A context with realistic per-dimension thread and grid limits. -/
def c9_ctx : hip_hardware_context :=
  ⟨0, { zeroDeviceProp with
          maxThreadsDim0 := 1024, maxThreadsDim1 := 1024, maxThreadsDim2 := 64,
          maxGridSize0 := 2147483647, maxGridSize1 := 65536, maxGridSize2 := 65536 }, 0⟩

/-- A manager owning exactly one (defaulted) Device Context. -/
def m1 : hip_hardware_manager :=
  ⟨hardware_platform.rocm, [defaulted_hip_context]⟩

/-- A concrete per-index Device Context construction. -/
def mkCtxFixture : Nat → hip_hardware_context :=
  fun d => ⟨d, zeroDeviceProp, 0⟩

/-! ## Theorems -/

theorem cppFind_eq_some_zero (pat s : List Char) :
    cppFind pat s = some 0 ↔ pat.isPrefixOf s = true := by
  cases s with
  | nil =>
      by_cases h : pat.isPrefixOf ([] : List Char) = true
      · simp [cppFind, h]
      · simp [cppFind, h]
  | cons c rest =>
      by_cases h : pat.isPrefixOf (c :: rest) = true
      · simp [cppFind, h]
      · simp [cppFind, h, Option.map_eq_some']

theorem eraseAtFirstColon_eq_takeWhile (s : List Char) :
    eraseAtFirstColon s = s.takeWhile (fun c => c != ':') := by
  induction s with
  | nil => rfl
  | cons c rest ih =>
      by_cases hc : c = ':'
      · subst hc
        simp [eraseAtFirstColon, cppFind, List.isPrefixOf]
      · have hpre : ([':'] : List Char).isPrefixOf (c :: rest) = false := by
          simp [List.isPrefixOf]
          intro hcontra
          exact absurd hcontra.symm hc
        unfold eraseAtFirstColon at ih ⊢
        rw [show cppFind [':'] (c :: rest) =
              (cppFind [':'] rest).map (· + 1) by simp [cppFind, hpre]]
        have hb : (c != ':') = true := by simp [hc]
        cases hfind : cppFind [':'] rest with
        | none =>
            rw [hfind] at ih
            have ih2 : rest = List.takeWhile (fun c => c != ':') rest := ih
            simp [List.takeWhile, hb, ← ih2]
        | some p =>
            rw [hfind] at ih
            have ih2 : List.take p rest = List.takeWhile (fun c => c != ':') rest := ih
            simp [List.takeWhile, hb, ← ih2]

theorem device_arch_string_to_int_eq_claim (s : List Char) :
    device_arch_string_to_int s = arch_parse_claim s := by
  unfold device_arch_string_to_int arch_parse_claim stoi16
  rw [eraseAtFirstColon_eq_takeWhile]
  by_cases h : cppFind ['g', 'f', 'x'] s = some 0
  · have hp : (['g', 'f', 'x'] : List Char).isPrefixOf s = true :=
      (cppFind_eq_some_zero _ _).mp h
    rw [h, if_neg (show ¬ ((some 0 : Option Nat) ≠ some 0) by simp),
      if_neg (show ¬ ¬ ((['g', 'f', 'x'] : List Char).isPrefixOf s = true) by simp [hp])]
  · have hp : ¬ ((['g', 'f', 'x'] : List Char).isPrefixOf s = true) := fun hh =>
      h ((cppFind_eq_some_zero _ _).mpr hh)
    rw [if_pos h, if_pos hp]

/-- C1, counterexample: on the input `"gfx"` the parser does not return 0 as the
claim states; the remaining substring after stripping the prefix is empty, so
`std::stoi` throws `std::invalid_argument`, which propagates out of the function. -/
theorem C1_counterexample_gfx :
    device_arch_string_to_int ['g', 'f', 'x'] = Except.error StoiError.invalidArgument ∧
      device_arch_string_to_int ['g', 'f', 'x'] ≠ Except.ok 0 :=
  ⟨rfl, fun hc => by
    rw [show device_arch_string_to_int ['g', 'f', 'x'] =
          Except.error StoiError.invalidArgument from rfl] at hc
    exact Except.noConfusion hc⟩

/-- C1, amended: `device_arch_string_to_int` returns 0 for a string not beginning
with `"gfx"`, and 0 when a character of the stripped, colon-truncated substring is
not a hexadecimal digit; when that substring is all hex digits it is parsed in
base 16, except that an empty substring throws `std::invalid_argument` (so `"gfx"`
raises instead of yielding 0) and a value above `INT_MAX` throws
`std::out_of_range`. In particular `"gfx908"` yields 0x908 = 2312,
`"gfx90a:sramecc+:xnack-"` yields 0x90a = 2314, `"notarch123"` and `""` yield 0. -/
theorem C1_arch_parser_amended :
    (∀ s : List Char, device_arch_string_to_int s = arch_parse_claim s) ∧
      device_arch_string_to_int ['g', 'f', 'x', '9', '0', '8'] = Except.ok 2312 ∧
      device_arch_string_to_int
        ['g', 'f', 'x', '9', '0', 'a', ':', 's', 'r', 'a', 'm', 'e', 'c', 'c', '+',
         ':', 'x', 'n', 'a', 'c', 'k', '-'] = Except.ok 2314 ∧
      device_arch_string_to_int ['n', 'o', 't', 'a', 'r', 'c', 'h', '1', '2', '3'] =
        Except.ok 0 ∧
      device_arch_string_to_int [] = Except.ok 0 ∧
      device_arch_string_to_int ['g', 'f', 'x'] = Except.error StoiError.invalidArgument :=
  ⟨device_arch_string_to_int_eq_claim, rfl, rfl, rfl, rfl, rfl⟩

theorem usize_of_range {i : Int} (h0 : 0 ≤ i) (h1 : i < 18446744073709551616) :
    usize i = i.toNat := by
  unfold usize
  rw [Int.emod_eq_of_lt h0 h1]

theorem toInt32_of_small {n : Nat} (h : n < 2147483648) : toInt32 n = (n : Int) := by
  unfold toInt32
  have h1 : (n : Int) % 4294967296 = (n : Int) :=
    Int.emod_eq_of_lt (by omega) (by omega)
  rw [h1, if_pos (by omega)]

/-- C2 (code bug): on a Device Context whose vendor property query failed — whose
snapshot is therefore the defaulted, zeroed record — `get_property` of
`max_num_sub_groups` evaluates `maxThreadsPerBlock / warpSize` as `0 / 0`, an
integer division by zero with no defined result (modelled `none`), contradicting
the claim that every scalar property query returns an unsigned integer. The
defaulted context is reachable: `construct 0 none` yields it (with one diagnostic).
The unsupported image and sampler properties do return 0 on every context. -/
theorem C2_get_property_zero_snapshot_division :
    hip_hardware_context.construct 0 none = Except.ok (defaulted_hip_context, 1) ∧
      hip_hardware_context.get_property 0 defaulted_hip_context
        device_uint_property.max_num_sub_groups = none ∧
      (∀ (bid : Int) (ctx : hip_hardware_context),
        hip_hardware_context.get_property bid ctx
            device_uint_property.max_read_image_args = some 0 ∧
          hip_hardware_context.get_property bid ctx
            device_uint_property.max_write_image_args = some 0 ∧
          hip_hardware_context.get_property bid ctx
            device_uint_property.image2d_max_width = some 0 ∧
          hip_hardware_context.get_property bid ctx
            device_uint_property.image2d_max_height = some 0 ∧
          hip_hardware_context.get_property bid ctx
            device_uint_property.image3d_max_width = some 0 ∧
          hip_hardware_context.get_property bid ctx
            device_uint_property.image3d_max_height = some 0 ∧
          hip_hardware_context.get_property bid ctx
            device_uint_property.image3d_max_depth = some 0 ∧
          hip_hardware_context.get_property bid ctx
            device_uint_property.image_max_buffer_size = some 0 ∧
          hip_hardware_context.get_property bid ctx
            device_uint_property.image_max_array_size = some 0 ∧
          hip_hardware_context.get_property bid ctx
            device_uint_property.max_samplers = some 0) :=
  ⟨rfl, rfl, fun _ _ => ⟨rfl, rfl, rfl, rfl, rfl, rfl, rfl, rfl, rfl, rfl⟩⟩

/-- C4: `has` is a total, deterministic function over the closed aspect
enumeration: every enumerator reaches a `some` answer (the `none` modelling the
terminating `assert(false); std::terminate()` fall-through is never reached), and
two calls with the same aspect on the same context give the same boolean. -/
theorem C4_has_total (sscp : Bool) (ctx : hip_hardware_context)
    (aspect : device_support_aspect) :
    (hip_hardware_context.has sscp ctx aspect).isSome = true ∧
      hip_hardware_context.has sscp ctx aspect =
        hip_hardware_context.has sscp ctx aspect := by
  refine ⟨?_, rfl⟩
  cases aspect <;> rfl

/-- C7: `get_max_kernel_concurrency` is 1 plus the boolean concurrent-kernels flag
of the snapshot: 1 when the flag is 0, 2 when it is 1. -/
theorem C7_kernel_concurrency (ctx : hip_hardware_context)
    (h : ctx.properties.concurrentKernels = 0 ∨ ctx.properties.concurrentKernels = 1) :
    ctx.get_max_kernel_concurrency = ctx.properties.concurrentKernels.toNat + 1 ∧
      (ctx.properties.concurrentKernels = 0 → ctx.get_max_kernel_concurrency = 1) ∧
      (ctx.properties.concurrentKernels = 1 → ctx.get_max_kernel_concurrency = 2) := by
  refine ⟨?_, fun h0 => ?_, fun h1 => ?_⟩
  · rcases h with h | h <;>
      · unfold hip_hardware_context.get_max_kernel_concurrency usize
        rw [h]
        decide
  · unfold hip_hardware_context.get_max_kernel_concurrency usize
    rw [h0]
    decide
  · unfold hip_hardware_context.get_max_kernel_concurrency usize
    rw [h1]
    decide

/-- C7 witness: a context reporting concurrent-kernel support has kernel
concurrency 2. -/
theorem C7_kernel_concurrency_witness :
    (c7_ctx.properties.concurrentKernels = 0 ∨ c7_ctx.properties.concurrentKernels = 1) ∧
      (c7_ctx.get_max_kernel_concurrency = c7_ctx.properties.concurrentKernels.toNat + 1 ∧
        (c7_ctx.properties.concurrentKernels = 0 → c7_ctx.get_max_kernel_concurrency = 1) ∧
        (c7_ctx.properties.concurrentKernels = 1 → c7_ctx.get_max_kernel_concurrency = 2)) :=
  ⟨Or.inr rfl, C7_kernel_concurrency c7_ctx (Or.inr rfl)⟩

/-- C8: `get_max_memcpy_concurrency` coincides with `get_max_kernel_concurrency`
on every Device Context. -/
theorem C8_memcpy_eq_kernel_concurrency (ctx : hip_hardware_context) :
    ctx.get_max_memcpy_concurrency = ctx.get_max_kernel_concurrency := rfl

theorem usize_mul_mod_eq {a b : Int} (ha : 0 ≤ a) (ha' : a < 2147483648)
    (hb : 0 ≤ b) (hb' : b < 2147483648) :
    (usize a * usize b) % 18446744073709551616 = a.toNat * b.toNat := by
  rw [usize_of_range ha (by omega), usize_of_range hb (by omega)]
  apply Nat.mod_eq_of_lt
  have h1 : a.toNat < 2147483648 := by omega
  have h2 : b.toNat < 2147483648 := by omega
  calc a.toNat * b.toNat
      < 2147483648 * 2147483648 :=
        mul_lt_mul'' h1 h2 (Nat.zero_le _) (Nat.zero_le _)
    _ < 18446744073709551616 := by norm_num

/-- C9: for each dimension, `max_global_size_k` is the exact product of the
snapshot's per-dimension thread limit and grid limit; because the first factor is
cast to `std::size_t` before the multiplication, no wrap-around occurs for values
in the `int` range reported by the vendor runtime. -/
theorem C9_max_global_size_product (bid : Int) (ctx : hip_hardware_context)
    (ht0 : 0 ≤ ctx.properties.maxThreadsDim0)
    (ht0' : ctx.properties.maxThreadsDim0 < 2147483648)
    (ht1 : 0 ≤ ctx.properties.maxThreadsDim1)
    (ht1' : ctx.properties.maxThreadsDim1 < 2147483648)
    (ht2 : 0 ≤ ctx.properties.maxThreadsDim2)
    (ht2' : ctx.properties.maxThreadsDim2 < 2147483648)
    (hg0 : 0 ≤ ctx.properties.maxGridSize0)
    (hg0' : ctx.properties.maxGridSize0 < 2147483648)
    (hg1 : 0 ≤ ctx.properties.maxGridSize1)
    (hg1' : ctx.properties.maxGridSize1 < 2147483648)
    (hg2 : 0 ≤ ctx.properties.maxGridSize2)
    (hg2' : ctx.properties.maxGridSize2 < 2147483648) :
    hip_hardware_context.get_property bid ctx device_uint_property.max_global_size0 =
        some (ctx.properties.maxThreadsDim0.toNat * ctx.properties.maxGridSize0.toNat) ∧
      hip_hardware_context.get_property bid ctx device_uint_property.max_global_size1 =
        some (ctx.properties.maxThreadsDim1.toNat * ctx.properties.maxGridSize1.toNat) ∧
      hip_hardware_context.get_property bid ctx device_uint_property.max_global_size2 =
        some (ctx.properties.maxThreadsDim2.toNat * ctx.properties.maxGridSize2.toNat) := by
  refine ⟨?_, ?_, ?_⟩
  · rw [show hip_hardware_context.get_property bid ctx device_uint_property.max_global_size0 =
        some ((usize ctx.properties.maxThreadsDim0 * usize ctx.properties.maxGridSize0) %
          18446744073709551616) from rfl, usize_mul_mod_eq ht0 ht0' hg0 hg0']
  · rw [show hip_hardware_context.get_property bid ctx device_uint_property.max_global_size1 =
        some ((usize ctx.properties.maxThreadsDim1 * usize ctx.properties.maxGridSize1) %
          18446744073709551616) from rfl, usize_mul_mod_eq ht1 ht1' hg1 hg1']
  · rw [show hip_hardware_context.get_property bid ctx device_uint_property.max_global_size2 =
        some ((usize ctx.properties.maxThreadsDim2 * usize ctx.properties.maxGridSize2) %
          18446744073709551616) from rfl, usize_mul_mod_eq ht2 ht2' hg2 hg2']

/-- C9 witness: the per-dimension global sizes of a concrete context. -/
theorem C9_max_global_size_product_witness :
    (0 ≤ c9_ctx.properties.maxThreadsDim0 ∧ c9_ctx.properties.maxThreadsDim0 < 2147483648 ∧
      0 ≤ c9_ctx.properties.maxGridSize0 ∧ c9_ctx.properties.maxGridSize0 < 2147483648) ∧
      hip_hardware_context.get_property 0 c9_ctx device_uint_property.max_global_size0 =
        some (c9_ctx.properties.maxThreadsDim0.toNat * c9_ctx.properties.maxGridSize0.toNat) ∧
      hip_hardware_context.get_property 0 c9_ctx device_uint_property.max_global_size1 =
        some (c9_ctx.properties.maxThreadsDim1.toNat * c9_ctx.properties.maxGridSize1.toNat) ∧
      hip_hardware_context.get_property 0 c9_ctx device_uint_property.max_global_size2 =
        some (c9_ctx.properties.maxThreadsDim2.toNat * c9_ctx.properties.maxGridSize2.toNat) :=
  ⟨⟨by decide, by decide, by decide, by decide⟩,
    C9_max_global_size_product 0 c9_ctx (by decide) (by decide) (by decide) (by decide)
      (by decide) (by decide) (by decide) (by decide) (by decide) (by decide)
      (by decide) (by decide)⟩

/-- C10: the preferred and native vector-width tables coincide (char 4, short 2,
half 2, int 1, long 1, float 1, double 1) on every Device Context. -/
theorem C10_vector_widths (bid : Int) (ctx : hip_hardware_context) :
    (hip_hardware_context.get_property bid ctx
          device_uint_property.preferred_vector_width_char =
        hip_hardware_context.get_property bid ctx
          device_uint_property.native_vector_width_char ∧
      hip_hardware_context.get_property bid ctx
          device_uint_property.preferred_vector_width_double =
        hip_hardware_context.get_property bid ctx
          device_uint_property.native_vector_width_double ∧
      hip_hardware_context.get_property bid ctx
          device_uint_property.preferred_vector_width_float =
        hip_hardware_context.get_property bid ctx
          device_uint_property.native_vector_width_float ∧
      hip_hardware_context.get_property bid ctx
          device_uint_property.preferred_vector_width_half =
        hip_hardware_context.get_property bid ctx
          device_uint_property.native_vector_width_half ∧
      hip_hardware_context.get_property bid ctx
          device_uint_property.preferred_vector_width_int =
        hip_hardware_context.get_property bid ctx
          device_uint_property.native_vector_width_int ∧
      hip_hardware_context.get_property bid ctx
          device_uint_property.preferred_vector_width_long =
        hip_hardware_context.get_property bid ctx
          device_uint_property.native_vector_width_long ∧
      hip_hardware_context.get_property bid ctx
          device_uint_property.preferred_vector_width_short =
        hip_hardware_context.get_property bid ctx
          device_uint_property.native_vector_width_short) ∧
      hip_hardware_context.get_property bid ctx
        device_uint_property.preferred_vector_width_char = some 4 ∧
      hip_hardware_context.get_property bid ctx
        device_uint_property.preferred_vector_width_short = some 2 ∧
      hip_hardware_context.get_property bid ctx
        device_uint_property.preferred_vector_width_half = some 2 ∧
      hip_hardware_context.get_property bid ctx
        device_uint_property.preferred_vector_width_int = some 1 ∧
      hip_hardware_context.get_property bid ctx
        device_uint_property.preferred_vector_width_long = some 1 ∧
      hip_hardware_context.get_property bid ctx
        device_uint_property.preferred_vector_width_float = some 1 ∧
      hip_hardware_context.get_property bid ctx
        device_uint_property.preferred_vector_width_double = some 1 :=
  ⟨⟨rfl, rfl, rfl, rfl, rfl, rfl, rfl⟩, rfl, rfl, rfl, rfl, rfl, rfl, rfl⟩

/-- C3: manager construction never fails. Status `hipErrorNoDevice` yields zero
devices and no diagnostic; any other failure status yields zero devices and
exactly one diagnostic (with the visibility-mask warning condition not holding);
a successful count query with count `n` constructs exactly `n` Device Contexts,
one per index in `[0, n)`. -/
theorem C3_manager_construction (hw : hardware_platform) (countOut : Nat)
    (mkCtx : Nat → hip_hardware_context) (code : Nat) (n i : Nat) (hi : i < n) :
    ((hip_hardware_manager.construct hw false HipError.noDevice countOut
          mkCtx).1.get_num_devices = 0 ∧
        (hip_hardware_manager.construct hw false HipError.noDevice countOut mkCtx).2 = 0) ∧
      ((hip_hardware_manager.construct hw false (HipError.other code) countOut
          mkCtx).1.get_num_devices = 0 ∧
        (hip_hardware_manager.construct hw false (HipError.other code) countOut
          mkCtx).2 = 1) ∧
      ((hip_hardware_manager.construct hw false HipError.success n
          mkCtx).1.get_num_devices = n ∧
        (hip_hardware_manager.construct hw false HipError.success n
          mkCtx).1.devices[i]? = some (mkCtx i)) := by
  refine ⟨⟨?_, ?_⟩, ⟨?_, ?_⟩, ⟨?_, ?_⟩⟩
  · simp [hip_hardware_manager.construct, hip_hardware_manager.get_num_devices]
  · simp [hip_hardware_manager.construct]
  · simp [hip_hardware_manager.construct, hip_hardware_manager.get_num_devices]
  · simp [hip_hardware_manager.construct]
  · simp [hip_hardware_manager.construct, hip_hardware_manager.get_num_devices]
  · simp [hip_hardware_manager.construct, List.getElem?_map, List.getElem?_range, hi]

/-- C3 witness: construction at concrete inputs (count 2, index 1). -/
theorem C3_manager_construction_witness :
    ((hip_hardware_manager.construct hardware_platform.rocm false HipError.noDevice 5
          mkCtxFixture).1.get_num_devices = 0 ∧
        (hip_hardware_manager.construct hardware_platform.rocm false HipError.noDevice 5
          mkCtxFixture).2 = 0) ∧
      ((hip_hardware_manager.construct hardware_platform.rocm false (HipError.other 7) 5
          mkCtxFixture).1.get_num_devices = 0 ∧
        (hip_hardware_manager.construct hardware_platform.rocm false (HipError.other 7) 5
          mkCtxFixture).2 = 1) ∧
      ((hip_hardware_manager.construct hardware_platform.rocm false HipError.success 2
          mkCtxFixture).1.get_num_devices = 2 ∧
        (hip_hardware_manager.construct hardware_platform.rocm false HipError.success 2
          mkCtxFixture).1.devices[1]? = some (mkCtxFixture 1)) :=
  C3_manager_construction hardware_platform.rocm 5 mkCtxFixture 7 2 1 (by decide)

/-- C5: `get_device` with an index at or past `get_num_devices` registers exactly
one invalid-access error and returns no usable reference, leaving the manager
unchanged (the embedding is pure); with a valid index it returns the owned context
at that slot and registers no error. -/
theorem C5_get_device_bounds (m : hip_hardware_manager) (i j : Nat)
    (hj : m.get_num_devices ≤ j) (hi : i < m.get_num_devices) :
    m.get_device j = (none, 1) ∧
      m.get_device i = (some (m.devices.get ⟨i, hi⟩), 0) := by
  constructor
  · simp only [hip_hardware_manager.get_device]
    rw [if_pos (show m.devices.length ≤ j from hj)]
  · simp only [hip_hardware_manager.get_device]
    rw [if_neg (show ¬ m.devices.length ≤ i from Nat.not_le.mpr hi)]
    have : m.devices[i]? = some (m.devices.get ⟨i, hi⟩) := by
      rw [List.getElem?_eq_getElem hi]
      rfl
    rw [this]

/-- C5 witness: a one-device manager at indices 1 (out of bounds) and 0 (valid). -/
theorem C5_get_device_bounds_witness :
    m1.get_device 1 = (none, 1) ∧
      m1.get_device 0 = (some (m1.devices.get ⟨0, by decide⟩), 0) :=
  C5_get_device_bounds m1 0 1 (by decide) (by decide)

/-- C6: `get_device_id` always returns the identifier composed of the manager's
platform tag, the HIP API tag, and the (int-cast) index; an out-of-bounds index
additionally registers exactly one invalid-access error, a valid one none; and for
every valid index in the `int` range the identifier carries exactly that index and
the manager's tags. -/
theorem C6_get_device_id (m : hip_hardware_manager) (idx oob i : Nat)
    (hoob : m.get_num_devices ≤ oob) (hi : i < m.get_num_devices)
    (hsmall : i < 2147483648) :
    (m.get_device_id idx).1 =
        ⟨⟨m.hw_platform, api_platform.hip⟩, toInt32 idx⟩ ∧
      (m.get_device_id oob).2 = 1 ∧
      (m.get_device_id i).2 = 0 ∧
      (m.get_device_id i).1 = ⟨⟨m.hw_platform, api_platform.hip⟩, (i : Int)⟩ := by
  refine ⟨rfl, ?_, ?_, ?_⟩
  · simp only [hip_hardware_manager.get_device_id]
    rw [if_pos (show m.devices.length ≤ oob from hoob)]
  · simp only [hip_hardware_manager.get_device_id]
    rw [if_neg (show ¬ m.devices.length ≤ i from Nat.not_le.mpr hi)]
  · simp only [hip_hardware_manager.get_device_id]
    rw [toInt32_of_small hsmall]

/-- C6 witness: a one-device manager at indices 4 (arbitrary), 2 (out of bounds)
and 0 (valid). -/
theorem C6_get_device_id_witness :
    (m1.get_device_id 4).1 =
        ⟨⟨m1.hw_platform, api_platform.hip⟩, toInt32 4⟩ ∧
      (m1.get_device_id 2).2 = 1 ∧
      (m1.get_device_id 0).2 = 0 ∧
      (m1.get_device_id 0).1 = ⟨⟨m1.hw_platform, api_platform.hip⟩, (0 : Int)⟩ :=
  C6_get_device_id m1 4 2 0 (by decide) (by decide) (by decide)
